import Mathlib

/-!
Verification of the screenshot backup script (`src/screenshot.py`).

The script is a linear routine: ensure the directory `backups/screenshots`
exists (`os.makedirs(..., exist_ok=True)`), format the current local time as
`%Y-%m-%d-%H%M%S`, build the path `backups/screenshots/screenshot-<ts>.png`,
then inside a single `try/except Exception` block capture a screenshot, save
it and print a success line; a caught exception prints a failure line.

The embedding models the environment (filesystem, clock, the outcomes of the
capture and save calls, and a possible `os.makedirs` failure) as a `World`,
and the whole script as a function `run : World → RunResult` returning the
process outcome, the printed lines and the final filesystem.
-/

namespace Screenshot

/-- A calendar time at second granularity, as consumed by `strftime`. -/
structure Time where
  year : Nat
  month : Nat
  day : Nat
  hour : Nat
  minute : Nat
  second : Nat
deriving Repr, DecidableEq

/-- A time whose components are in the ranges `datetime` guarantees
(the bounds needed for each `strftime` field to occupy its padded width). -/
def Time.Valid (t : Time) : Prop :=
  t.year < 10000 ∧ t.month < 100 ∧ t.day < 100 ∧
    t.hour < 100 ∧ t.minute < 100 ∧ t.second < 100

instance (t : Time) : Decidable t.Valid := by
  unfold Time.Valid
  infer_instance

/-- Linearisation of a time, for comparing clock readings. -/
def Time.key (t : Time) : Nat :=
  ((((t.year * 100 + t.month) * 100 + t.day) * 100 + t.hour) * 100
      + t.minute) * 100 + t.second

/-- The decimal digit character for `n % 10`, as `strftime` emits it. -/
def digitChar (n : Nat) : Char :=
  match n % 10 with
  | 0 => '0'
  | 1 => '1'
  | 2 => '2'
  | 3 => '3'
  | 4 => '4'
  | 5 => '5'
  | 6 => '6'
  | 7 => '7'
  | 8 => '8'
  | _ => '9'

/-- `%m`, `%d`, `%H`, `%M`, `%S`: a zero-padded two-digit field. -/
def fmt2 (n : Nat) : List Char :=
  [digitChar (n / 10), digitChar n]

/-- `%Y`: the zero-padded four-digit year (years are below 10000). -/
def fmtY (n : Nat) : List Char :=
  [digitChar (n / 1000), digitChar (n / 100), digitChar (n / 10), digitChar n]

/-- The characters of `strftime("%Y-%m-%d-%H%M%S")`. -/
def strftimeChars (t : Time) : List Char :=
  fmtY t.year ++ ['-'] ++ fmt2 t.month ++ ['-'] ++ fmt2 t.day ++ ['-'] ++
    fmt2 t.hour ++ fmt2 t.minute ++ fmt2 t.second

/-- `timestamp = datetime.now().strftime("%Y-%m-%d-%H%M%S")`, as a function
of the clock reading. -/
def timestamp (t : Time) : String :=
  String.mk (strftimeChars t)

/-- Numeric value of a decimal digit character; `none` on a non-digit. -/
def dval (c : Char) : Option Nat :=
  if c.isDigit then some (c.toNat - 48) else none

/-- Parse a `YYYY-MM-DD-HHMMSS` string back into a `Time`: exactly 17
characters, dashes at positions 4, 7 and 10, digits everywhere else. -/
def parseTimestamp (s : String) : Option Time :=
  match s.toList with
  | [a, b, c, d, k1, e, f, k2, g, h, k3, i, j, l, m, n, o] =>
    if k1 = '-' ∧ k2 = '-' ∧ k3 = '-' then
      match dval a, dval b, dval c, dval d, dval e, dval f, dval g, dval h,
          dval i, dval j, dval l, dval m, dval n, dval o with
      | some va, some vb, some vc, some vd, some ve, some vf, some vg,
          some vh, some vi, some vj, some vl, some vm, some vn, some vo =>
        some ⟨1000 * va + 100 * vb + 10 * vc + vd, 10 * ve + vf,
          10 * vg + vh, 10 * vi + vj, 10 * vl + vm, 10 * vn + vo⟩
      | _, _, _, _, _, _, _, _, _, _, _, _, _, _ => none
    else none
  | _ => none

theorem dval_digitChar (m : Nat) : dval (digitChar m) = some (m % 10) := by
  have h : m % 10 < 10 := Nat.mod_lt _ (by omega)
  unfold digitChar
  set r := m % 10 with hr
  interval_cases r <;> decide

/-- Formatting a valid time and parsing the result recovers the time. -/
theorem parseTimestamp_timestamp (t : Time) (hv : t.Valid) :
    parseTimestamp (timestamp t) = some t := by
  obtain ⟨hy, hmo, hd, hh, hmi, hs⟩ := hv
  obtain ⟨y, mo, d, h, mi, s⟩ := t
  simp only [timestamp, strftimeChars, fmtY, fmt2, List.cons_append,
    List.nil_append, List.append_assoc] at *
  simp only [parseTimestamp, String.toList, dval_digitChar]
  simp only [and_self, if_true, Option.some.injEq, Time.mk.injEq]
  refine ⟨?_, ?_, ?_, ?_, ?_, ?_⟩ <;> omega

/-- A Python exception value: whether it is an instance of `Exception`
(as opposed to a bare `BaseException` subclass such as `KeyboardInterrupt`
or `SystemExit`), and its human-readable description `str(e)`. -/
structure PyErr where
  catchable : Bool
  msg : String
deriving Repr, DecidableEq

/-- The filesystem fragment the script touches: the set of existing
directories and the files (path mapped to an image identifier). -/
structure FS where
  dirs : List String
  files : List (String × Nat)
deriving Repr, DecidableEq

/-- Create directory `d` if absent; a no-op when it already exists. -/
def FS.addDir (fs : FS) (d : String) : FS :=
  if d ∈ fs.dirs then fs else { fs with dirs := d :: fs.dirs }

/-- Write image `img` at path `p`, overwriting any existing file there. -/
def FS.setFile (fs : FS) (p : String) (img : Nat) : FS :=
  { fs with files := (p, img) :: fs.files.filter (fun q => q.1 != p) }

/-- `screenshot_dir = "backups/screenshots"`. -/
def screenshot_dir : String := "backups/screenshots"

/-- `os.makedirs("backups/screenshots", exist_ok=exist_ok)`: an environmental
failure (`osErr`, e.g. permission denied or a file occupying the path) is
raised as-is; otherwise a pre-existing directory raises `FileExistsError`
only when `exist_ok` is false, and on success the missing intermediate
directory `backups` and the leaf directory are both created. -/
def makedirs (fs : FS) (osErr : Option PyErr) (exist_ok : Bool) :
    Except PyErr FS :=
  match osErr with
  | some e => .error e
  | none =>
    if screenshot_dir ∈ fs.dirs ∧ exist_ok = false then
      .error ⟨true, "FileExistsError"⟩
    else
      .ok ((fs.addDir "backups").addDir screenshot_dir)

/-- `filename = f"screenshot-{timestamp}.png"`. -/
def filename (t : Time) : String :=
  "screenshot-" ++ timestamp t ++ ".png"

/-- `filepath = os.path.join(screenshot_dir, filename)`. -/
def filepath (t : Time) : String :=
  screenshot_dir ++ "/" ++ filename t

/-- One run's environment: the initial filesystem, whether `os.makedirs`
fails, the clock reading taken by `datetime.now()`, the outcome of
`pyautogui.screenshot()` (an image identifier or a raised exception) and of
`image.save(filepath)` (`none` on success, a raised exception otherwise). -/
structure World where
  fs0 : FS
  mkdirErr : Option PyErr
  now : Time
  captureRes : Except PyErr Nat
  saveErr : Option PyErr

/-- How the process terminates: normally, or abnormally with an uncaught
exception propagating out of the script. -/
inductive Outcome where
  | normal
  | abnormal (e : PyErr)
deriving Repr, DecidableEq

/-- Observable result of a run: process outcome, the lines printed to
standard output, and the final filesystem. -/
structure RunResult where
  outcome : Outcome
  output : List String
  fs : FS
deriving Repr, DecidableEq

def successLine (fp : String) : String :=
  "✅ Screenshot saved: " ++ fp

def failureLine (msg : String) : String :=
  "❌ Failed to take screenshot: " ++ msg

/-- The whole script, top to bottom: `makedirs`, timestamp and path
computation, then the `try` block (capture, save, success print) with its
`except Exception` handler (failure print). A raised exception that is not
an `Exception` instance is not caught and aborts the process; so does a
`makedirs` failure, which happens before the `try` block. -/
def run (w : World) : RunResult :=
  match makedirs w.fs0 w.mkdirErr true with
  | .error e => ⟨.abnormal e, [], w.fs0⟩
  | .ok fs1 =>
    let fp := filepath w.now
    match w.captureRes with
    | .error e =>
      if e.catchable then ⟨.normal, [failureLine e.msg], fs1⟩
      else ⟨.abnormal e, [], fs1⟩
    | .ok img =>
      match w.saveErr with
      | some e =>
        if e.catchable then ⟨.normal, [failureLine e.msg], fs1⟩
        else ⟨.abnormal e, [], fs1⟩
      | none =>
        ⟨.normal, [successLine fp], fs1.setFile fp img⟩

/-! ### Spec-side definitions

`specTimestamp` renders the spec's words — "the current local timestamp
formatted as `YYYY-MM-DD-HHMMSS`", each field zero-padded to its width — to
be compared with the `strftime`-derived `timestamp`. -/

/-- The low `w` decimal digits of `n`, zero-padded to width `w`. -/
def padZeros : Nat → Nat → List Char
  | 0, _ => []
  | w + 1, n => padZeros w (n / 10) ++ [digitChar n]

/-- The spec's timestamp format: `YYYY-MM-DD-HHMMSS`, a four-digit year and
two-digit zero-padded month, day, hour, minute, second. -/
def specTimestamp (t : Time) : String :=
  String.mk (padZeros 4 t.year ++ ['-'] ++ padZeros 2 t.month ++ ['-'] ++
    padZeros 2 t.day ++ ['-'] ++ padZeros 2 t.hour ++ padZeros 2 t.minute ++
    padZeros 2 t.second)

theorem timestamp_eq_specTimestamp (t : Time) :
    timestamp t = specTimestamp t := by
  simp only [timestamp, specTimestamp, strftimeChars, fmtY, fmt2]
  norm_num [padZeros, Nat.div_div_eq_div_mul]

/-- The 17 timestamp characters embedded in a filename of the shape
`screenshot-<17 chars>.png`. -/
def embeddedStamp (s : String) : String :=
  String.mk ((s.toList.drop 11).take 17)

theorem embeddedStamp_filename (t : Time) :
    embeddedStamp (filename t) = timestamp t := rfl

/-! ### Filesystem lemmas -/

theorem FS.files_addDir (fs : FS) (d : String) :
    (fs.addDir d).files = fs.files := by
  unfold FS.addDir
  split <;> rfl

theorem FS.mem_addDir (fs : FS) (e d : String) :
    d ∈ (fs.addDir e).dirs ↔ d = e ∨ d ∈ fs.dirs := by
  unfold FS.addDir
  split
  · next he =>
    constructor
    · exact Or.inr
    · rintro (rfl | hd)
      · exact he
      · exact hd
  · simp [List.mem_cons]

theorem FS.dirs_setFile (fs : FS) (p : String) (img : Nat) :
    (fs.setFile p img).dirs = fs.dirs := rfl

theorem lookup_filter_ne (l : List (String × Nat)) (fp p : String)
    (h : p ≠ fp) :
    (l.filter (fun q => q.1 != fp)).lookup p = l.lookup p := by
  induction l with
  | nil => rfl
  | cons q l ih =>
    obtain ⟨k, v⟩ := q
    by_cases hq : k = fp
    · subst hq
      have hp : (p == k) = false := by simp [h]
      simp [List.filter_cons, List.lookup, hp, ih]
    · have hk : (k != fp) = true := by simp [hq]
      by_cases hpk : p = k
      · subst hpk
        simp [List.filter_cons, hk, List.lookup]
      · have hp : (p == k) = false := by simp [hpk]
        simp [List.filter_cons, hk, List.lookup, hp, ih]

theorem countP_filter_key (l : List (String × Nat)) (fp : String) :
    (l.filter (fun q => q.1 != fp)).countP (fun q => q.1 == fp) = 0 := by
  induction l with
  | nil => rfl
  | cons q l ih =>
    by_cases hq : q.1 = fp
    · simp [List.filter_cons, hq, ih]
    · simp [List.filter_cons, hq, List.countP_cons, ih]

theorem FS.lookup_setFile_self (fs : FS) (fp : String) (img : Nat) :
    (fs.setFile fp img).files.lookup fp = some img := by
  simp [FS.setFile, List.lookup]

theorem FS.lookup_setFile_ne (fs : FS) (fp p : String) (img : Nat)
    (h : p ≠ fp) :
    (fs.setFile fp img).files.lookup p = fs.files.lookup p := by
  have hp : (p == fp) = false := by simp [h]
  simp [FS.setFile, List.lookup, hp, lookup_filter_ne _ _ _ h]

theorem FS.countP_setFile (fs : FS) (fp : String) (img : Nat) :
    (fs.setFile fp img).files.countP (fun q => q.1 == fp) = 1 := by
  simp [FS.setFile, List.countP_cons, countP_filter_key]

/-- The filesystem after a successful `makedirs`: both directory levels
ensured. -/
def ensuredFS (fs : FS) : FS :=
  (fs.addDir "backups").addDir screenshot_dir

theorem mem_ensuredFS (fs : FS) (d : String) :
    d ∈ (ensuredFS fs).dirs ↔
      d = "backups/screenshots" ∨ d = "backups" ∨ d ∈ fs.dirs := by
  rw [ensuredFS, FS.mem_addDir, FS.mem_addDir]
  simp [screenshot_dir]

theorem files_ensuredFS (fs : FS) : (ensuredFS fs).files = fs.files := by
  rw [ensuredFS, FS.files_addDir, FS.files_addDir]

/-- Exhaustive case analysis of a run: a `makedirs` failure aborts before
anything is printed; otherwise either some exception is raised during
capture or save (caught iff it is an `Exception` instance), or both steps
succeed and the file is written. -/
theorem run_cases (w : World) :
    (∃ e, w.mkdirErr = some e ∧ run w = ⟨.abnormal e, [], w.fs0⟩) ∨
    (w.mkdirErr = none ∧
      ((∃ e, (w.captureRes = .error e ∨
            ∃ img, w.captureRes = .ok img ∧ w.saveErr = some e) ∧
          ((e.catchable = true ∧
              run w = ⟨.normal, [failureLine e.msg], ensuredFS w.fs0⟩) ∨
           (e.catchable = false ∧
              run w = ⟨.abnormal e, [], ensuredFS w.fs0⟩))) ∨
       (∃ img, w.captureRes = .ok img ∧ w.saveErr = none ∧
          run w = ⟨.normal, [successLine (filepath w.now)],
            (ensuredFS w.fs0).setFile (filepath w.now) img⟩))) := by
  rcases hm : w.mkdirErr with _ | e
  · right
    refine ⟨rfl, ?_⟩
    rcases hc : w.captureRes with e | img
    · left
      refine ⟨e, Or.inl rfl, ?_⟩
      rcases he : e.catchable with _ | _
      · exact Or.inr ⟨rfl, by simp [run, makedirs, ensuredFS, hm, hc, he]⟩
      · exact Or.inl ⟨rfl, by simp [run, makedirs, ensuredFS, hm, hc, he]⟩
    · rcases hs : w.saveErr with _ | e
      · exact Or.inr ⟨img, rfl, rfl,
          by simp [run, makedirs, ensuredFS, hm, hc, hs]⟩
      · left
        refine ⟨e, Or.inr ⟨img, rfl, rfl⟩, ?_⟩
        rcases he : e.catchable with _ | _
        · exact Or.inr ⟨rfl,
            by simp [run, makedirs, ensuredFS, hm, hc, hs, he]⟩
        · exact Or.inl ⟨rfl,
            by simp [run, makedirs, ensuredFS, hm, hc, hs, he]⟩
  · exact Or.inl ⟨e, rfl, by simp [run, makedirs, hm]⟩

/-! ### Claim theorems -/

/-- C1: whenever capture or save raises a failure (an `Exception` instance),
the single try/except boundary catches it, one message containing the
error's human-readable description is printed to standard output, and the
process terminates normally. -/
theorem failure_caught_prints_and_exits_normally (w : World) (e : PyErr)
    (hm : w.mkdirErr = none) (he : e.catchable = true)
    (hf : w.captureRes = .error e ∨
      (∃ img, w.captureRes = .ok img ∧ w.saveErr = some e)) :
    (run w).outcome = .normal ∧
    ∃ a b, (run w).output = [a ++ e.msg ++ b] := by
  have hr : run w = ⟨.normal, [failureLine e.msg], ensuredFS w.fs0⟩ := by
    rcases hf with hc | ⟨img, hc, hs⟩
    · simp [run, makedirs, ensuredFS, hm, hc, he]
    · simp [run, makedirs, ensuredFS, hm, hc, hs, he]
  rw [hr]
  exact ⟨rfl, "❌ Failed to take screenshot: ", "",
    by simp [failureLine, String.append_empty]⟩

/-- C2: a failure raised by directory creation is not caught — it
propagates, the process terminates abnormally, and nothing is printed. -/
theorem makedirs_failure_propagates (w : World) (e : PyErr)
    (hm : w.mkdirErr = some e) :
    (run w).outcome = .abnormal e ∧ (run w).output = [] := by
  simp [run, makedirs, hm]

/-- C3: the target path is the directory `backups/screenshots` joined with
`screenshot-<timestamp>.png`, where the timestamp is the clock reading
formatted at second granularity as `YYYY-MM-DD-HHMMSS`; a successful run
stores the captured image at exactly that path. -/
theorem target_path_format (w : World) (img : Nat)
    (hm : w.mkdirErr = none) (hc : w.captureRes = .ok img)
    (hs : w.saveErr = none) :
    filepath w.now = "backups/screenshots" ++ "/" ++
      ("screenshot-" ++ specTimestamp w.now ++ ".png") ∧
    (run w).fs.files.lookup (filepath w.now) = some img := by
  constructor
  · rw [filepath, filename, timestamp_eq_specTimestamp]
    rfl
  · have hr : run w = ⟨.normal, [successLine (filepath w.now)],
        (ensuredFS w.fs0).setFile (filepath w.now) img⟩ := by
      simp [run, makedirs, ensuredFS, hm, hc, hs]
    rw [hr]
    exact FS.lookup_setFile_self _ _ _

/-- C4: any run that terminates normally leaves both `backups` and
`backups/screenshots` existing (even when capture or save failed), and
`makedirs` with `exist_ok=True` treats a pre-existing directory as success,
returning the filesystem unchanged. -/
theorem backup_dir_ensured (w : World) :
    ((run w).outcome = .normal →
      "backups" ∈ (run w).fs.dirs ∧
        "backups/screenshots" ∈ (run w).fs.dirs) ∧
    (∀ fs : FS, "backups" ∈ fs.dirs → "backups/screenshots" ∈ fs.dirs →
      makedirs fs none true = .ok fs) := by
  constructor
  · intro hn
    have hens : ∀ fs : FS, "backups" ∈ (ensuredFS fs).dirs ∧
        "backups/screenshots" ∈ (ensuredFS fs).dirs := by
      intro fs
      rw [mem_ensuredFS, mem_ensuredFS]
      exact ⟨Or.inr (Or.inl rfl), Or.inl rfl⟩
    rcases run_cases w with ⟨e, hm, hr⟩ |
        ⟨hm, ⟨e, hf, ⟨he, hr⟩ | ⟨he, hr⟩⟩ | ⟨img, hc, hsv, hr⟩⟩
    · rw [hr] at hn
      exact absurd hn (by simp)
    · rw [hr]
      exact hens w.fs0
    · rw [hr] at hn
      exact absurd hn (by simp)
    · rw [hr]
      rw [RunResult.mk.injEq] at hr
      exact hens w.fs0
  · intro fs h1 h2
    have hsd : screenshot_dir ∈ fs.dirs := h2
    simp [makedirs, FS.addDir, screenshot_dir, h1, h2]

/-- C5: a run that terminates normally prints exactly one line — the
success line containing the saved path on full success, or the failure line
containing the error description on a caught capture/save failure. -/
theorem exactly_one_line_printed (w : World)
    (h : (run w).outcome = .normal) :
    (run w).output.length = 1 ∧
    ((∃ img, w.captureRes = .ok img ∧ w.saveErr = none ∧
        ∃ a b, (run w).output = [a ++ filepath w.now ++ b]) ∨
     (∃ e : PyErr, e.catchable = true ∧
        (w.captureRes = .error e ∨ w.saveErr = some e) ∧
        ∃ a b, (run w).output = [a ++ e.msg ++ b])) := by
  rcases run_cases w with ⟨e, hm, hr⟩ |
      ⟨hm, ⟨e, hf, ⟨he, hr⟩ | ⟨he, hr⟩⟩ | ⟨img, hc, hsv, hr⟩⟩
  · rw [hr] at h
    exact absurd h (by simp)
  · rw [hr]
    refine ⟨rfl, Or.inr ⟨e, he, ?_, "❌ Failed to take screenshot: ", "",
      by simp [failureLine, String.append_empty]⟩⟩
    rcases hf with hc | ⟨img, hc, hsv⟩
    · exact Or.inl hc
    · exact Or.inr hsv
  · rw [hr] at h
    exact absurd h (by simp)
  · rw [hr]
    exact ⟨rfl, Or.inl ⟨img, hc, hsv, "✅ Screenshot saved: ", "",
      by simp [successLine, String.append_empty]⟩⟩

/-- C6: when capture fails with an `Exception` instance, a failure message
is printed, no file is created (the file table is untouched), and the
process exits normally. -/
theorem capture_failure_no_file (w : World) (e : PyErr)
    (hm : w.mkdirErr = none) (hc : w.captureRes = .error e)
    (he : e.catchable = true) :
    (run w).outcome = .normal ∧
    (∃ a b, (run w).output = [a ++ e.msg ++ b]) ∧
    (run w).fs.files = w.fs0.files := by
  have hr : run w = ⟨.normal, [failureLine e.msg], ensuredFS w.fs0⟩ := by
    simp [run, makedirs, ensuredFS, hm, hc, he]
  rw [hr]
  exact ⟨rfl, ⟨"❌ Failed to take screenshot: ", "",
    by simp [failureLine, String.append_empty]⟩, files_ensuredFS _⟩

/-- C7: two runs whose clock readings fall in the same second compute the
same filename; after the first stores its image and the second runs on the
resulting filesystem, the second image has overwritten the first and
exactly one file with that second's path remains. -/
theorem same_second_collision_overwrite (w1 w2 : World) (i1 i2 : Nat)
    (hnow : w2.now = w1.now) (_hfs : w2.fs0 = (run w1).fs)
    (hm1 : w1.mkdirErr = none) (hc1 : w1.captureRes = .ok i1)
    (hs1 : w1.saveErr = none)
    (hm2 : w2.mkdirErr = none) (hc2 : w2.captureRes = .ok i2)
    (hs2 : w2.saveErr = none) :
    filename w2.now = filename w1.now ∧
    (run w1).fs.files.lookup (filepath w1.now) = some i1 ∧
    (run w2).fs.files.lookup (filepath w1.now) = some i2 ∧
    (run w2).fs.files.countP (fun q => q.1 == filepath w1.now) = 1 := by
  have hr1 : run w1 = ⟨.normal, [successLine (filepath w1.now)],
      (ensuredFS w1.fs0).setFile (filepath w1.now) i1⟩ := by
    simp [run, makedirs, ensuredFS, hm1, hc1, hs1]
  have hr2 : run w2 = ⟨.normal, [successLine (filepath w2.now)],
      (ensuredFS w2.fs0).setFile (filepath w2.now) i2⟩ := by
    simp [run, makedirs, ensuredFS, hm2, hc2, hs2]
  refine ⟨by rw [hnow], ?_, ?_, ?_⟩
  · rw [hr1]
    exact FS.lookup_setFile_self _ _ _
  · rw [hr2, hnow]
    exact FS.lookup_setFile_self _ _ _
  · rw [hr2, hnow]
    exact FS.countP_setFile _ _ _

/-- C8: for a valid clock reading taken between the start and the end of
the routine, the timestamp embedded in the output filename parses back to
a time inside the wall-clock interval from start to end. -/
theorem embedded_timestamp_in_interval (w : World) (tS tE : Time)
    (hv : w.now.Valid)
    (h1 : tS.key ≤ w.now.key) (h2 : w.now.key ≤ tE.key) :
    ∃ t : Time, parseTimestamp (embeddedStamp (filename w.now)) = some t ∧
      tS.key ≤ t.key ∧ t.key ≤ tE.key :=
  ⟨w.now,
    by rw [embeddedStamp_filename]; exact parseTimestamp_timestamp _ hv,
    h1, h2⟩

/-- C9: an event that is not an `Exception` instance (e.g.
`KeyboardInterrupt`, `SystemExit`) raised during capture or save is not
caught: the process terminates abnormally and prints nothing. -/
theorem base_exception_not_caught (w : World) (e : PyErr)
    (hm : w.mkdirErr = none) (he : e.catchable = false)
    (hf : w.captureRes = .error e ∨
      (∃ img, w.captureRes = .ok img ∧ w.saveErr = some e)) :
    (run w).outcome = .abnormal e ∧ (run w).output = [] := by
  rcases hf with hc | ⟨img, hc, hs⟩
  · simp [run, makedirs, hm, hc, he]
  · simp [run, makedirs, hm, hc, hs, he]

/-- C10: the only filesystem effects of a run are creating `backups` and
`backups/screenshots` when absent and writing the target file: no
directory is removed, any path other than the target keeps its file
content, and the target either keeps its old content or holds the
captured image. -/
theorem filesystem_frame (w : World) :
    (∀ d, d ∈ (run w).fs.dirs →
        d ∈ w.fs0.dirs ∨ d = "backups" ∨ d = "backups/screenshots") ∧
    (∀ d, d ∈ w.fs0.dirs → d ∈ (run w).fs.dirs) ∧
    (∀ p, p ≠ filepath w.now →
        (run w).fs.files.lookup p = w.fs0.files.lookup p) ∧
    ((run w).fs.files.lookup (filepath w.now) =
        w.fs0.files.lookup (filepath w.now) ∨
      ∃ img, w.captureRes = .ok img ∧
        (run w).fs.files.lookup (filepath w.now) = some img) := by
  have hensdirs : ∀ d, d ∈ (ensuredFS w.fs0).dirs →
      d ∈ w.fs0.dirs ∨ d = "backups" ∨ d = "backups/screenshots" := by
    intro d hd
    rw [mem_ensuredFS] at hd
    rcases hd with h | h | h
    · exact Or.inr (Or.inr h)
    · exact Or.inr (Or.inl h)
    · exact Or.inl h
  have hensmem : ∀ d, d ∈ w.fs0.dirs → d ∈ (ensuredFS w.fs0).dirs := by
    intro d hd
    rw [mem_ensuredFS]
    exact Or.inr (Or.inr hd)
  rcases run_cases w with ⟨e, hm, hr⟩ |
      ⟨hm, ⟨e, hf, ⟨he, hr⟩ | ⟨he, hr⟩⟩ | ⟨img, hc, hsv, hr⟩⟩
  · rw [hr]
    exact ⟨fun d hd => Or.inl hd, fun d hd => hd, fun p _ => rfl,
      Or.inl rfl⟩
  · rw [hr]
    exact ⟨hensdirs, hensmem,
      fun p _ => by rw [files_ensuredFS], Or.inl (by rw [files_ensuredFS])⟩
  · rw [hr]
    exact ⟨hensdirs, hensmem,
      fun p _ => by rw [files_ensuredFS], Or.inl (by rw [files_ensuredFS])⟩
  · rw [hr]
    refine ⟨?_, ?_, ?_, ?_⟩
    · intro d hd
      rw [FS.dirs_setFile] at hd
      exact hensdirs d hd
    · intro d hd
      rw [FS.dirs_setFile]
      exact hensmem d hd
    · intro p hp
      rw [FS.lookup_setFile_ne _ _ _ _ hp, files_ensuredFS]
    · exact Or.inr ⟨img, hc, FS.lookup_setFile_self _ _ _⟩

/-! ### Concrete scenarios -/

def tEx : Time := ⟨2026, 10, 12, 13, 45, 59⟩

def tSEx : Time := ⟨2026, 10, 12, 13, 45, 58⟩

def tEEx : Time := ⟨2026, 10, 12, 13, 46, 0⟩

def fsEx : FS := ⟨["tmp"], [("tmp/old.txt", 3)]⟩

def errEx : PyErr := ⟨true, "no display"⟩

def intrEx : PyErr := ⟨false, "KeyboardInterrupt"⟩

def permEx : PyErr := ⟨true, "Permission denied"⟩

def wOk : World := ⟨fsEx, none, tEx, .ok 7, none⟩

def wCapFail : World := ⟨fsEx, none, tEx, .error errEx, none⟩

def wMkdirFail : World := ⟨fsEx, some permEx, tEx, .ok 7, none⟩

def wIntr : World := ⟨fsEx, none, tEx, .error intrEx, none⟩

def wOk2 : World := ⟨(run wOk).fs, none, tEx, .ok 8, none⟩

/-! ### Witnesses -/

/-- Witness for C1 at a concrete capture failure. -/
theorem failure_caught_witness :
    wCapFail.mkdirErr = none ∧ errEx.catchable = true ∧
    ((run wCapFail).outcome = .normal ∧
      ∃ a b, (run wCapFail).output = [a ++ errEx.msg ++ b]) :=
  ⟨rfl, rfl,
    failure_caught_prints_and_exits_normally wCapFail errEx rfl rfl
      (Or.inl rfl)⟩

/-- Witness for C2 at a concrete `makedirs` failure. -/
theorem makedirs_failure_propagates_witness :
    wMkdirFail.mkdirErr = some permEx ∧
    ((run wMkdirFail).outcome = .abnormal permEx ∧
      (run wMkdirFail).output = []) :=
  ⟨rfl, makedirs_failure_propagates wMkdirFail permEx rfl⟩

/-- Witness for C3 at a concrete successful run. -/
theorem target_path_format_witness :
    wOk.mkdirErr = none ∧ wOk.captureRes = .ok 7 ∧ wOk.saveErr = none ∧
    (filepath wOk.now = "backups/screenshots" ++ "/" ++
        ("screenshot-" ++ specTimestamp wOk.now ++ ".png") ∧
      (run wOk).fs.files.lookup (filepath wOk.now) = some 7) :=
  ⟨rfl, rfl, rfl, target_path_format wOk 7 rfl rfl rfl⟩

/-- Witness for C4 at a concrete run. -/
theorem backup_dir_ensured_witness :
    ((run wOk).outcome = .normal →
      "backups" ∈ (run wOk).fs.dirs ∧
        "backups/screenshots" ∈ (run wOk).fs.dirs) ∧
    (∀ fs : FS, "backups" ∈ fs.dirs → "backups/screenshots" ∈ fs.dirs →
      makedirs fs none true = .ok fs) :=
  backup_dir_ensured wOk

/-- Witness for C5 at a concrete successful run. -/
theorem exactly_one_line_printed_witness :
    (run wOk).outcome = .normal ∧
    ((run wOk).output.length = 1 ∧
      ((∃ img, wOk.captureRes = .ok img ∧ wOk.saveErr = none ∧
          ∃ a b, (run wOk).output = [a ++ filepath wOk.now ++ b]) ∨
       (∃ e : PyErr, e.catchable = true ∧
          (wOk.captureRes = .error e ∨ wOk.saveErr = some e) ∧
          ∃ a b, (run wOk).output = [a ++ e.msg ++ b]))) :=
  ⟨rfl, exactly_one_line_printed wOk rfl⟩

/-- Witness for C6 at a concrete capture failure. -/
theorem capture_failure_no_file_witness :
    wCapFail.mkdirErr = none ∧ wCapFail.captureRes = .error errEx ∧
    errEx.catchable = true ∧
    ((run wCapFail).outcome = .normal ∧
      (∃ a b, (run wCapFail).output = [a ++ errEx.msg ++ b]) ∧
      (run wCapFail).fs.files = wCapFail.fs0.files) :=
  ⟨rfl, rfl, rfl, capture_failure_no_file wCapFail errEx rfl rfl rfl⟩

/-- Witness for C7 at two concrete same-second runs. -/
theorem same_second_collision_overwrite_witness :
    wOk2.now = wOk.now ∧ wOk2.fs0 = (run wOk).fs ∧
    (filename wOk2.now = filename wOk.now ∧
      (run wOk).fs.files.lookup (filepath wOk.now) = some 7 ∧
      (run wOk2).fs.files.lookup (filepath wOk.now) = some 8 ∧
      (run wOk2).fs.files.countP (fun q => q.1 == filepath wOk.now) = 1) :=
  ⟨rfl, rfl,
    same_second_collision_overwrite wOk wOk2 7 8 rfl rfl rfl rfl rfl rfl
      rfl rfl⟩

/-- Witness for C8 at a concrete clock interval. -/
theorem embedded_timestamp_in_interval_witness :
    wOk.now.Valid ∧ tSEx.key ≤ wOk.now.key ∧ wOk.now.key ≤ tEEx.key ∧
    (∃ t : Time,
      parseTimestamp (embeddedStamp (filename wOk.now)) = some t ∧
        tSEx.key ≤ t.key ∧ t.key ≤ tEEx.key) :=
  ⟨by decide, by decide, by decide,
    embedded_timestamp_in_interval wOk tSEx tEEx (by decide) (by decide)
      (by decide)⟩

/-- Witness for C9 at a concrete `KeyboardInterrupt` during capture. -/
theorem base_exception_not_caught_witness :
    wIntr.mkdirErr = none ∧ intrEx.catchable = false ∧
    ((run wIntr).outcome = .abnormal intrEx ∧ (run wIntr).output = []) :=
  ⟨rfl, rfl,
    base_exception_not_caught wIntr intrEx rfl rfl (Or.inl rfl)⟩

/-- Witness for C10 at a concrete run over a non-empty filesystem. -/
theorem filesystem_frame_witness :
    (∀ d, d ∈ (run wOk).fs.dirs →
        d ∈ wOk.fs0.dirs ∨ d = "backups" ∨ d = "backups/screenshots") ∧
    (∀ d, d ∈ wOk.fs0.dirs → d ∈ (run wOk).fs.dirs) ∧
    (∀ p, p ≠ filepath wOk.now →
        (run wOk).fs.files.lookup p = wOk.fs0.files.lookup p) ∧
    ((run wOk).fs.files.lookup (filepath wOk.now) =
        wOk.fs0.files.lookup (filepath wOk.now) ∨
      ∃ img, wOk.captureRes = .ok img ∧
        (run wOk).fs.files.lookup (filepath wOk.now) = some img) :=
  filesystem_frame wOk

end Screenshot
